import Mathlib

/-!
# Authentication routes of the admin portal (`backend/routes/authRoutes.js`)

A shallow embedding of the Express handlers `POST /login`, `GET /verify`,
`GET /navigation/:spa_id` and `GET /spa-status/:spa_id`.

Every handler is a pure function of the request and of an environment `Env`
that holds the collaborators the handler awaits (database pool, bcrypt,
jsonwebtoken, the spa status checker).  A handler returns the HTTP response
together with the ordered list of collaborator calls it made, so that "is
never called" is a statement about that list.  A collaborator that throws
(or whose promise rejects) is an `Except.error` carrying the error text.
-/

namespace Spaavii

/-! ## JavaScript values -/

/-- Scalar JavaScript values: request body fields, table columns and token
claims.  Numbers are the integer-valued ones (ids and flags). -/
inductive JsVal where
  | undefined
  | null
  | bool (b : Bool)
  | num (n : Int)
  | str (s : String)
  deriving DecidableEq, Repr

/-- ToBoolean: what `!x` and `x && y` test. -/
def JsVal.truthy : JsVal → Bool
  | .undefined => false
  | .null => false
  | .bool b => b
  | .num n => n != 0
  | .str s => s != ""

/-- Strict equality `v === s` against a string. -/
def JsVal.strictEqStr : JsVal → String → Bool
  | .str t, s => t == s
  | _, _ => false

/-- Result of ToNumber on a string, as far as a comparison with an
integer-valued number can see it: `NaN`, an integer-valued number, or any
other number (a fraction or an infinity). -/
inductive JsNumber where
  | nan
  | int (n : Int)
  | other
  deriving DecidableEq, Repr

/-- StrWhiteSpaceChar: the WhiteSpace and LineTerminator code points. -/
def isStrWhiteSpace (c : Char) : Bool :=
  [0x9, 0xA, 0xB, 0xC, 0xD, 0x20, 0xA0, 0x1680, 0x2028, 0x2029, 0x202F, 0x205F, 0x3000,
    0xFEFF].contains c.toNat || (0x2000 ≤ c.toNat && c.toNat ≤ 0x200A)

/-- Value of the digit `c` in the given base (2, 8, 10 or 16). -/
def digitValue (base : Nat) (c : Char) : Option Nat :=
  let n := c.toNat
  let v := if 48 ≤ n && n ≤ 57 then some (n - 48)
    else if 97 ≤ n && n ≤ 102 then some (n - 87)
    else if 65 ≤ n && n ≤ 70 then some (n - 55)
    else none
  match v with
  | some d => if d < base then some d else none
  | none => none

/-- Value of a non-empty run of digits of the given base; `none` when the run
is empty or holds another character. -/
def digitsValue (base : Nat) (cs : List Char) : Option Nat :=
  if cs.isEmpty then none
  else cs.foldl (fun acc c =>
    match acc, digitValue base c with
    | some n, some d => some (base * n + d)
    | _, _ => none) (some 0)

/-- Floor of the binary logarithm of `n`, 0 for `n < 2`; `fuel` bounds the
number of halvings and `n` itself is always enough. -/
def log2Floor (fuel n : Nat) : Nat :=
  match fuel with
  | 0 => 0
  | fuel + 1 => if n < 2 then 0 else log2Floor fuel (n / 2) + 1

/-- Floor of the binary logarithm of the positive ratio `a / b`. -/
def floorLog2Ratio (a b : Nat) : Int :=
  if b ≤ a then (log2Floor (a / b) (a / b) : Int)
  else
    let k := log2Floor (b / a) (b / a)
    if a * 2 ^ k = b then -(k : Int) else -(k : Int) - 1

/-- The integer nearest to `num / den`, a tie going to the even one. -/
def roundHalfEven (num den : Nat) : Nat :=
  let q := num / den
  let r := num % den
  if 2 * r < den then q
  else if den < 2 * r then q + 1
  else if q % 2 = 0 then q else q + 1

/-- The double nearest to the non-negative ratio `a / b` (round to nearest,
ties to even, 53 bits of precision, exponents from -1074 to 1023), seen as a
`JsNumber`: an integer when the double is one, `other` for a fraction or an
overflow to infinity. -/
def doubleOfRatio (a b : Nat) : JsNumber :=
  if a = 0 then .int 0
  else
    let u := max (floorLog2Ratio a b) (-1022) - 52
    if 0 ≤ u then
      let m := roundHalfEven a (b * 2 ^ u.toNat)
      if log2Floor m m + u.toNat < 1024 then .int (m * 2 ^ u.toNat : Nat) else .other
    else
      let m := roundHalfEven (a * 2 ^ (-u).toNat) b
      if m % 2 ^ (-u).toNat = 0 then .int (m / 2 ^ (-u).toNat : Nat) else .other

/-- Unary minus; `-0` and `0` are the same integer. -/
def JsNumber.neg : JsNumber → JsNumber
  | .int n => .int (-n)
  | x => x

/-- The optional ExponentPart at the end of a decimal literal. -/
def exponentValue : List Char → Option Int
  | [] => some 0
  | c :: cs =>
    if c = 'e' ∨ c = 'E' then
      match cs with
      | '+' :: ds => (digitsValue 10 ds).map Int.ofNat
      | '-' :: ds => (digitsValue 10 ds).map (fun n => -Int.ofNat n)
      | ds => (digitsValue 10 ds).map Int.ofNat
    else none

/-- StrUnsignedDecimalLiteral: `Infinity`, or digits with an optional
fraction and an optional exponent, at least one digit before or after the
point. -/
def unsignedDecimal (cs : List Char) : JsNumber :=
  if cs = "Infinity".toList then .other
  else
    let ip := cs.takeWhile Char.isDigit
    let rest := cs.dropWhile Char.isDigit
    let fp := match rest with
      | '.' :: r => r.takeWhile Char.isDigit
      | _ => []
    let tail := match rest with
      | '.' :: r => r.dropWhile Char.isDigit
      | r => r
    if ip.isEmpty && fp.isEmpty then .nan
    else
      match digitsValue 10 ('0' :: (ip ++ fp)), exponentValue tail with
      | some n, some e =>
        let scale := e - fp.length
        if 0 ≤ scale then doubleOfRatio (n * 10 ^ scale.toNat) 1
        else doubleOfRatio n (10 ^ (-scale).toNat)
      | _, _ => .nan

/-- StrNumericLiteral after trimming: empty is 0; an unsigned hexadecimal,
octal or binary integer literal; or a decimal literal with an optional sign. -/
def strNumericLiteral : List Char → JsNumber
  | [] => .int 0
  | '0' :: 'x' :: ds | '0' :: 'X' :: ds =>
    match digitsValue 16 ds with
    | some n => doubleOfRatio n 1
    | none => .nan
  | '0' :: 'o' :: ds | '0' :: 'O' :: ds =>
    match digitsValue 8 ds with
    | some n => doubleOfRatio n 1
    | none => .nan
  | '0' :: 'b' :: ds | '0' :: 'B' :: ds =>
    match digitsValue 2 ds with
    | some n => doubleOfRatio n 1
    | none => .nan
  | '+' :: cs => unsignedDecimal cs
  | '-' :: cs => (unsignedDecimal cs).neg
  | cs => unsignedDecimal cs

/-- The abstract operation StringToNumber of ECMAScript, which is ToNumber on
a string: white space is trimmed, the rest is read as a StrNumericLiteral
(`NaN` when it is none) and its mathematical value is rounded to the nearest
double, exactly, as V8 does for literals of any length. -/
def StringToNumber (s : String) : JsNumber :=
  strNumericLiteral
    ((s.toList.dropWhile isStrWhiteSpace).reverse.dropWhile isStrWhiteSpace).reverse

/-- Loose inequality `v != s` where `s` is a string (a path parameter).
`undefined` and `null` equal no string; a string is compared as a string; a
number or boolean is compared with ToNumber of the string, which is the
engine's conversion `toNumber`. -/
def JsVal.looseNeStr (toNumber : String → JsNumber) : JsVal → String → Bool
  | .undefined, _ => true
  | .null, _ => true
  | .bool b, s => toNumber s != JsNumber.int (if b then 1 else 0)
  | .num n, s => toNumber s != JsNumber.int n
  | .str t, s => t != s

/-- JSON values sent in response bodies and signed into tokens. -/
inductive Json where
  | val (v : JsVal)
  | arr (xs : List Json)
  | obj (kvs : List (String × Json))

/-- A JavaScript object as its ordered own properties. -/
abbrev JsObj := List (String × Json)

/-- Property read `o[k]`; an absent property reads as `none`. -/
def JsObj.get (o : JsObj) (k : String) : Option Json :=
  (o.find? (fun kv => kv.1 == k)).map (fun kv => kv.2)

/-- Property presence `k in o`. -/
def JsObj.has (o : JsObj) (k : String) : Bool :=
  o.any (fun kv => kv.1 == k)

/-- Property assignment `o[k] = v`: overwrite in place or append. -/
def JsObj.set (o : JsObj) (k : String) (v : Json) : JsObj :=
  if o.any (fun kv => kv.1 == k) then
    o.map (fun kv => if kv.1 == k then (k, v) else kv)
  else
    o ++ [(k, v)]

/-- Property removal `delete o[k]`. -/
def JsObj.delete (o : JsObj) (k : String) : JsObj :=
  o.filter (fun kv => kv.1 != k)

def Json.ofStr (s : String) : Json := .val (.str s)

def Json.ofBool (b : Bool) : Json := .val (.bool b)

def Json.ofStrs (xs : List String) : Json := .arr (xs.map Json.ofStr)

/-- The string `s` starts with `p` (`String.prototype.startsWith`). -/
def startsWith (s p : String) : Bool :=
  p.toList.isPrefixOf s.toList

/-- Remove the first occurrence of `pat` from the characters `s`. -/
def removeFirst (pat : List Char) : List Char → List Char
  | [] => []
  | c :: cs =>
    if pat.isPrefixOf (c :: cs) then (c :: cs).drop pat.length
    else c :: removeFirst pat cs

/-- The call `h.replace('Bearer ', '')`: only the first occurrence goes. -/
def stripBearer (h : String) : String :=
  String.mk (removeFirst "Bearer ".toList h.toList)

/-! ## Data model -/

/-- A row of `admin_users` with the columns the handlers select. -/
structure UserRow where
  id : Int
  username : String
  email : JsVal
  password_hash : String
  role : String
  full_name : JsVal
  phone : JsVal
  spa_id : JsVal
  is_active : Int
  last_login : JsVal

/-- The row object of the login query (line 32), columns in select order. -/
def UserRow.loginObj (u : UserRow) : JsObj :=
  [("id", .val (.num u.id)), ("username", .ofStr u.username), ("email", .val u.email),
   ("password_hash", .ofStr u.password_hash), ("role", .ofStr u.role),
   ("full_name", .val u.full_name), ("phone", .val u.phone), ("spa_id", .val u.spa_id),
   ("is_active", .val (.num u.is_active)), ("last_login", .val u.last_login)]

/-- The row object of the verify query (line 195): neither `password_hash`
nor `last_login` is selected. -/
def UserRow.verifyObj (u : UserRow) : JsObj :=
  [("id", .val (.num u.id)), ("username", .ofStr u.username), ("email", .val u.email),
   ("role", .ofStr u.role), ("full_name", .val u.full_name), ("phone", .val u.phone),
   ("spa_id", .val u.spa_id), ("is_active", .val (.num u.is_active))]

/-- The database behind `db.getConnection()`: the `admin_users` table, the
engine's comparisons of a column with a bound parameter, and for each
operation the error it throws, if it does. -/
structure Db where
  admin_users : List UserRow
  usernameEq : String → JsVal → Bool
  idEq : Int → JsVal → Bool
  connectError : Option String
  selectError : Option String
  updateError : Option String

/-- The query `... FROM admin_users WHERE username = ? AND is_active = 1`. -/
def Db.selectByUsername (db : Db) (username : JsVal) : Except String (List UserRow) :=
  match db.selectError with
  | some e => .error e
  | none => .ok (db.admin_users.filter (fun r => db.usernameEq r.username username && r.is_active == 1))

/-- The query `... FROM admin_users WHERE id = ? AND is_active = 1`. -/
def Db.selectById (db : Db) (id : JsVal) : Except String (List UserRow) :=
  match db.selectError with
  | some e => .error e
  | none => .ok (db.admin_users.filter (fun r => db.idEq r.id id && r.is_active == 1))

/-- The tenant row carried in a status check: its `status` and the other
columns. -/
structure SpaInfo where
  status : String
  columns : JsObj

def SpaInfo.toJson (s : SpaInfo) : Json :=
  .obj (("status", .ofStr s.status) :: s.columns)

/-- The value of a `spa` property: an absent row is `undefined`. -/
def SpaInfo.optJson : Option SpaInfo → Json
  | some s => s.toJson
  | none => .val .undefined

/-- What `getSpaStatusAndAccess` resolves to, by the properties the handlers
read. -/
structure SpaStatusCheck where
  success : Bool
  error : String
  spa : Option SpaInfo
  canLogin : Bool
  accessLevel : String
  allowedTabs : List String
  statusMessage : String

/-- What `getFilteredNavigation` resolves to. -/
structure NavigationData where
  success : Bool
  error : String
  navItems : List Json
  statusInfo : Json

/-- The claims `jwt.verify` hands back, by the properties the handlers read. -/
structure Decoded where
  id : JsVal
  spa_id : JsVal

/-- Why `jwt.verify` throws. -/
inductive JwtError where
  | expired
  | badSignature
  | malformed
  deriving DecidableEq, Repr

/-- The collaborators of the handlers. -/
structure Env where
  envSecret : Option String
  db : Db
  bcryptCompare : JsVal → String → Except String Bool
  getSpaStatusAndAccess : JsVal → Except String SpaStatusCheck
  getFilteredNavigation : JsVal → Except String NavigationData
  jwtSign : JsObj → String → String → String
  jwtVerify : String → String → Except JwtError Decoded
  toNumber : String → JsNumber

/-- Line 9: `process.env.JWT_SECRET || 'your-secret-key-change-in-production'`. -/
def JWT_SECRET (env : Env) : String :=
  match env.envSecret with
  | some s => if s != "" then s else "your-secret-key-change-in-production"
  | none => "your-secret-key-change-in-production"

/-- An HTTP response: `res.status(n).json(body)`. -/
structure Response where
  status : Nat
  body : JsObj

/-- A collaborator call made by a handler. -/
inductive Call where
  | getConnection
  | selectByUsername (username : JsVal)
  | selectById (id : JsVal)
  | bcryptCompare
  | getSpaStatusAndAccess (spa_id : JsVal)
  | getFilteredNavigation (spa_id : JsVal)
  | updateLastLogin (id : Int)
  | jwtSign (payload : JsObj)
  | jwtVerify (token : String)
  | release

/-- A block of handler code that has run: the response it sent, or the error
it threw, and the calls it made. -/
structure Ran where
  result : Except String Response
  calls : List Call

/-- A finished request. -/
structure Outcome where
  response : Response
  calls : List Call

def Ran.after (c : Call) (r : Ran) : Ran :=
  { r with calls := c :: r.calls }

/-! ## `POST /login` (lines 12-155) -/

/-- The body of a login request after `const { username, password } = req.body`. -/
structure LoginRequest where
  username : JsVal
  password : JsVal

/-- Lines 50-66: bcrypt comparison for a stored value starting with `$2b$`
(a comparison that throws counts as a mismatch), strict equality with the
stored value otherwise. -/
def isPasswordValid (env : Env) (password : JsVal) (user : UserRow) : Bool :=
  if startsWith user.password_hash "$2b$" then
    match env.bcryptCompare password user.password_hash with
    | .ok b => b
    | .error _ => false
  else
    password.strictEqStr user.password_hash

/-- The collaborator calls of the password check. -/
def passwordCalls (user : UserRow) : List Call :=
  if startsWith user.password_hash "$2b$" then [.bcryptCompare] else []

/-- Lines 123-129: the payload given to `jwt.sign`. -/
def tokenPayload (user : UserRow) : JsObj :=
  [("id", .val (.num user.id)), ("username", .ofStr user.username),
   ("role", .ofStr user.role), ("spa_id", .val user.spa_id)]

/-- Lines 116-142: update `last_login`, sign the token, drop `password_hash`
and answer.  `userObj` is the `user` object as the tenant gate left it. -/
def loginFinish (env : Env) (user : UserRow) (userObj : JsObj) : Ran :=
  match env.db.updateError with
  | some e => ⟨.error e, [.updateLastLogin user.id]⟩
  | none =>
    let token := env.jwtSign (tokenPayload user) (JWT_SECRET env) "24h"
    ⟨.ok ⟨200, [("success", .ofBool true), ("message", .ofStr "Login successful"),
                ("user", .obj (userObj.delete "password_hash")), ("token", .ofStr token)]⟩,
     [.updateLastLogin user.id, .jwtSign (tokenPayload user)]⟩

/-- What reading `spaStatusCheck.spa.status` throws when `spa` is undefined. -/
def noSpaError : String :=
  "TypeError: Cannot read properties of undefined (reading \x27status\x27)"

/-- Lines 92-99: the message of the 403 response, `spa` being the tenant row
of the status check. -/
def deniedMessage (spaStatusCheck : SpaStatusCheck) (spa : SpaInfo) : String :=
  if spa.status == "pending" then
    "Your spa registration is pending approval. Please wait for LSA verification."
  else if spa.status == "blacklisted" then
    "Your account has been suspended by the admin panel. Please contact LSA administration."
  else
    spaStatusCheck.statusMessage

/-- Lines 110-113: the status properties added to the `user` object. -/
def withSpaStatus (userObj : JsObj) (spaStatusCheck : SpaStatusCheck) (spa : SpaInfo) : JsObj :=
  (((userObj.set "spa_status" (.ofStr spa.status)).set
      "access_level" (.ofStr spaStatusCheck.accessLevel)).set
      "allowed_tabs" (.ofStrs spaStatusCheck.allowedTabs)).set
      "status_message" (.ofStr spaStatusCheck.statusMessage)

/-- Lines 78-142: the tenant gate for `admin_spa` users with a `spa_id`, then
the rest of the login. -/
def loginGate (env : Env) (user : UserRow) : Ran :=
  if user.role == "admin_spa" && user.spa_id.truthy then
    Ran.after (.getSpaStatusAndAccess user.spa_id) <|
      match env.getSpaStatusAndAccess user.spa_id with
      | .error e => ⟨.error e, []⟩
      | .ok spaStatusCheck =>
        if !spaStatusCheck.success then
          ⟨.ok ⟨500, [("success", .ofBool false),
                      ("message", .ofStr "Error checking spa status")]⟩, []⟩
        else if !spaStatusCheck.canLogin then
          match spaStatusCheck.spa with
          | none => ⟨.error noSpaError, []⟩
          | some spa =>
            ⟨.ok ⟨403, [("success", .ofBool false),
                        ("message", .ofStr (deniedMessage spaStatusCheck spa)),
                        ("spa_status", .ofStr spa.status),
                        ("access_denied", .ofBool true)]⟩, []⟩
        else
          match spaStatusCheck.spa with
          | none => ⟨.error noSpaError, []⟩
          | some spa => loginFinish env user (withSpaStatus user.loginObj spaStatusCheck spa)
  else
    loginFinish env user user.loginObj

/-- The 401 of lines 37-40 and of lines 70-73. -/
def invalidCredentials : Response :=
  ⟨401, [("success", .ofBool false), ("message", .ofStr "Invalid username or password")]⟩

/-- Lines 30-142: the code inside `try { ... } finally { connection.release() }`. -/
def loginQuery (env : Env) (req : LoginRequest) : Ran :=
  Ran.after (.selectByUsername req.username) <|
    match env.db.selectByUsername req.username with
    | .error e => ⟨.error e, []⟩
    | .ok [] => ⟨.ok invalidCredentials, []⟩
    | .ok (user :: _) =>
      if !isPasswordValid env req.password user then
        ⟨.ok invalidCredentials, passwordCalls user⟩
      else
        let r := loginGate env user
        { r with calls := passwordCalls user ++ r.calls }

/-- The 500 of the outer `catch` (lines 148-154). -/
def internalServerError : Response :=
  ⟨500, [("success", .ofBool false), ("message", .ofStr "Internal server error")]⟩

/-- The handler of `POST /login`. -/
def login (env : Env) (req : LoginRequest) : Outcome :=
  if !req.username.truthy || !req.password.truthy then
    ⟨⟨400, [("success", .ofBool false),
            ("message", .ofStr "Username and password are required")]⟩, []⟩
  else
    match env.db.connectError with
    | some _ => ⟨internalServerError, [.getConnection]⟩
    | none =>
      let r := loginQuery env req
      match r.result with
      | .ok res => ⟨res, .getConnection :: (r.calls ++ [.release])⟩
      | .error _ => ⟨internalServerError, .getConnection :: (r.calls ++ [.release])⟩

/-! ## Token-bearing requests (lines 177-320) -/

/-- The expression `req.header('Authorization')?.replace('Bearer ', '')`; the
header is `none` when the request has none. -/
def bearerToken (authorization : Option String) : Option String :=
  authorization.map stripBearer

def noTokenProvided : Response :=
  ⟨401, [("success", .ofBool false), ("message", .ofStr "No token provided")]⟩

/-- The 401 of the `catch` of the verify handler (lines 215-221). -/
def invalidToken : Response :=
  ⟨401, [("success", .ofBool false), ("message", .ofStr "Invalid token")]⟩

/-- Lines 193-209: the code inside the `try ... finally` of the verify handler. -/
def verifyQuery (env : Env) (decoded : Decoded) : Ran :=
  Ran.after (.selectById decoded.id) <|
    match env.db.selectById decoded.id with
    | .error e => ⟨.error e, []⟩
    | .ok [] => ⟨.ok ⟨401, [("success", .ofBool false),
                            ("message", .ofStr "User not found or inactive")]⟩, []⟩
    | .ok (user :: _) =>
      ⟨.ok ⟨200, [("success", .ofBool true), ("user", .obj user.verifyObj)]⟩, []⟩

/-- The handler of `GET /verify` (lines 177-222). -/
def verify (env : Env) (authorization : Option String) : Outcome :=
  match bearerToken authorization with
  | none => ⟨noTokenProvided, []⟩
  | some token =>
    if token == "" then ⟨noTokenProvided, []⟩
    else
      match env.jwtVerify token (JWT_SECRET env) with
      | .error _ => ⟨invalidToken, [.jwtVerify token]⟩
      | .ok decoded =>
        match env.db.connectError with
        | some _ => ⟨invalidToken, [.jwtVerify token, .getConnection]⟩
        | none =>
          let r := verifyQuery env decoded
          match r.result with
          | .ok res => ⟨res, .jwtVerify token :: .getConnection :: (r.calls ++ [.release])⟩
          | .error _ =>
            ⟨invalidToken, .jwtVerify token :: .getConnection :: (r.calls ++ [.release])⟩

/-- The 403 of lines 241-244 and 289-292. -/
def accessDeniedToSpa : Response :=
  ⟨403, [("success", .ofBool false), ("message", .ofStr "Access denied to this spa")]⟩

/-- The 500 of the `catch` of the navigation handler (lines 263-269). -/
def navigationError : Response :=
  ⟨500, [("success", .ofBool false), ("message", .ofStr "Error retrieving navigation items")]⟩

/-- The handler of `GET /navigation/:spa_id` (lines 225-270). -/
def navigation (env : Env) (spa_id : String) (authorization : Option String) : Outcome :=
  match bearerToken authorization with
  | none => ⟨noTokenProvided, []⟩
  | some token =>
    if token == "" then ⟨noTokenProvided, []⟩
    else
      match env.jwtVerify token (JWT_SECRET env) with
      | .error _ => ⟨navigationError, [.jwtVerify token]⟩
      | .ok decoded =>
        if decoded.spa_id.looseNeStr env.toNumber spa_id then
          ⟨accessDeniedToSpa, [.jwtVerify token]⟩
        else
          match env.getFilteredNavigation (.str spa_id) with
          | .error _ =>
            ⟨navigationError, [.jwtVerify token, .getFilteredNavigation (.str spa_id)]⟩
          | .ok navigationData =>
            if !navigationData.success then
              ⟨⟨500, [("success", .ofBool false), ("message", .ofStr navigationData.error)]⟩,
               [.jwtVerify token, .getFilteredNavigation (.str spa_id)]⟩
            else
              ⟨⟨200, [("success", .ofBool true), ("navigation", .arr navigationData.navItems),
                      ("statusInfo", navigationData.statusInfo)]⟩,
               [.jwtVerify token, .getFilteredNavigation (.str spa_id)]⟩

/-- The 500 of the `catch` of the spa-status handler (lines 313-319). -/
def spaStatusError : Response :=
  ⟨500, [("success", .ofBool false), ("message", .ofStr "Error checking spa status")]⟩

/-- The handler of `GET /spa-status/:spa_id` (lines 273-320). -/
def spaStatus (env : Env) (spa_id : String) (authorization : Option String) : Outcome :=
  match bearerToken authorization with
  | none => ⟨noTokenProvided, []⟩
  | some token =>
    if token == "" then ⟨noTokenProvided, []⟩
    else
      match env.jwtVerify token (JWT_SECRET env) with
      | .error _ => ⟨spaStatusError, [.jwtVerify token]⟩
      | .ok decoded =>
        if decoded.spa_id.looseNeStr env.toNumber spa_id then
          ⟨accessDeniedToSpa, [.jwtVerify token]⟩
        else
          match env.getSpaStatusAndAccess (.str spa_id) with
          | .error _ =>
            ⟨spaStatusError, [.jwtVerify token, .getSpaStatusAndAccess (.str spa_id)]⟩
          | .ok spaStatusCheck =>
            if !spaStatusCheck.success then
              ⟨⟨500, [("success", .ofBool false), ("message", .ofStr spaStatusCheck.error)]⟩,
               [.jwtVerify token, .getSpaStatusAndAccess (.str spa_id)]⟩
            else
              ⟨⟨200, [("success", .ofBool true), ("spa", SpaInfo.optJson spaStatusCheck.spa),
                      ("accessLevel", .ofStr spaStatusCheck.accessLevel),
                      ("allowedTabs", .ofStrs spaStatusCheck.allowedTabs),
                      ("statusMessage", .ofStr spaStatusCheck.statusMessage),
                      ("canLogin", .ofBool spaStatusCheck.canLogin)]⟩,
               [.jwtVerify token, .getSpaStatusAndAccess (.str spa_id)]⟩

/-! ## The tenant status resolver of section 4.2 -/

/-- Modelled from the spec: `getSpaStatusAndAccess` of
`backend/utils/spaStatusChecker`, which is not among the sources.  Section
4.2: the tenant record is looked up (`tenants` is that lookup: the record,
`none` when there is no such tenant, or the collaborator error); an approved
tenant may log in with access level "full" and all destinations `allTabs`; a
pending or blacklisted tenant may not, with access level "none" and no
destination; any other status, a missing record and a failed lookup are
failures, reported as `success = false`. -/
def SpecModel.getSpaStatusAndAccess (tenants : JsVal → Except String (Option SpaInfo))
    (allTabs : List String) (spa_id : JsVal) : Except String SpaStatusCheck :=
  match tenants spa_id with
  | .error e =>
    .ok { success := false, error := e, spa := none, canLogin := false,
          accessLevel := "none", allowedTabs := [], statusMessage := "" }
  | .ok none =>
    .ok { success := false, error := "TenantNotFound", spa := none, canLogin := false,
          accessLevel := "none", allowedTabs := [], statusMessage := "" }
  | .ok (some spa) =>
    if spa.status == "approved" then
      .ok { success := true, error := "", spa := some spa, canLogin := true,
            accessLevel := "full", allowedTabs := allTabs, statusMessage := "" }
    else if spa.status == "pending" then
      .ok { success := true, error := "", spa := some spa, canLogin := false,
            accessLevel := "none", allowedTabs := [],
            statusMessage := "registration pending approval — awaiting verification." }
    else if spa.status == "blacklisted" then
      .ok { success := true, error := "", spa := some spa, canLogin := false,
            accessLevel := "none", allowedTabs := [],
            statusMessage := "account suspended — contact administration." }
    else
      .ok { success := false, error := "UnknownStatus", spa := some spa, canLogin := false,
            accessLevel := "none", allowedTabs := [], statusMessage := "" }

/-! ## Example data -/

namespace Example

/-- A tenant-scoped administrator of tenant 7 with a legacy plaintext secret. -/
def spa1 : UserRow :=
  { id := 1, username := "spa1", email := .str "spa1@example.com",
    password_hash := "plaintext123", role := "admin_spa", full_name := .str "Spa One",
    phone := .null, spa_id := .num 7, is_active := 1, last_login := .null }

/-- A global administrator. -/
def lsa1 : UserRow :=
  { id := 2, username := "lsa1", email := .str "lsa1@example.com",
    password_hash := "letmein", role := "admin_lsa", full_name := .str "Lsa One",
    phone := .null, spa_id := .null, is_active := 1, last_login := .null }

/-- A deactivated account. -/
def gone : UserRow :=
  { id := 3, username := "gone", email := .null, password_hash := "secret",
    role := "admin_lsa", full_name := .null, phone := .null, spa_id := .null,
    is_active := 0, last_login := .null }

/-- A working database holding the three accounts; columns are compared with
parameters exactly. -/
def db : Db :=
  { admin_users := [spa1, lsa1, gone],
    usernameEq := fun c p => p == JsVal.str c,
    idEq := fun c p => p == JsVal.num c,
    connectError := none, selectError := none, updateError := none }

/-- The tenant table: tenant 7 with the given status, and no other tenant. -/
def tenants (status : String) (spa_id : JsVal) : Except String (Option SpaInfo) :=
  if spa_id == JsVal.num 7 || spa_id == JsVal.str "7" then .ok (some ⟨status, []⟩)
  else .ok none

/-- ToNumber on strings in the examples: the engine's StringToNumber. -/
def toNumber (s : String) : JsNumber :=
  StringToNumber s

/-- Token verification of the examples: `t7` is a valid token of user 1 for
tenant 7, `old7` the same token after its expiry, `bad7` the same token with a
wrong signature, and nothing else parses. -/
def jwtVerify (token : String) (_secret : String) : Except JwtError Decoded :=
  if token == "t7" then .ok ⟨.num 1, .num 7⟩
  else if token == "old7" then .error .expired
  else if token == "bad7" then .error .badSignature
  else .error .malformed

/-- An environment in which every collaborator works, with tenant 7 in the
given status. -/
def env (status : String) : Env :=
  { envSecret := none, db := db,
    bcryptCompare := fun _ _ => .ok false,
    getSpaStatusAndAccess :=
      SpecModel.getSpaStatusAndAccess (tenants status) ["dashboard", "therapists", "payments"],
    getFilteredNavigation := fun _ =>
      .ok { success := true, error := "", navItems := [.ofStr "dashboard"],
            statusInfo := .ofStr status },
    jwtSign := fun _ _ _ => "signed",
    jwtVerify := jwtVerify,
    toNumber := toNumber }

end Example

/-- A database like `Example.db` whose `UPDATE admin_users` statement fails. -/
def Example.dbUpdateFails : Db :=
  { Example.db with updateError := some "ER_LOCK_WAIT_TIMEOUT" }

/-- An `admin_spa` account that has no tenant. -/
def Example.orphan : UserRow :=
  { id := 4, username := "orphan", email := .null, password_hash := "hunter2",
    role := "admin_spa", full_name := .null, phone := .null, spa_id := .null,
    is_active := 1, last_login := .null }

/-- The environment `Example.env status` with `orphan` added to the table. -/
def Example.envOrphan (status : String) : Env :=
  { Example.env status with
    db := { Example.db with admin_users := Example.orphan :: Example.db.admin_users } }

/-- An environment like `Example.env "approved"` in which the status resolver
and the navigation filter both report a failure with the given error text. -/
def Example.envFailing (text : String) : Env :=
  { Example.env "approved" with
    getSpaStatusAndAccess := fun _ =>
      .ok { success := false, error := text, spa := none, canLogin := false,
            accessLevel := "none", allowedTabs := [], statusMessage := "" },
    getFilteredNavigation := fun _ =>
      .ok { success := false, error := text, navItems := [], statusInfo := .val .null } }

/-- The environment `Example.envOrphan status` whose `UPDATE admin_users`
statement fails. -/
def Example.envOrphanUpdateFails (status : String) : Env :=
  { Example.envOrphan status with
    db := { (Example.envOrphan status).db with updateError := some "ER_LOCK_WAIT_TIMEOUT" } }

/-- Two tenants with neighbouring large ids: 9007199254740992, whose
administrator holds the token `tbig`, and 9007199254740993, an approved
tenant of somebody else. -/
def Example.bigTenants (spa_id : JsVal) : Except String (Option SpaInfo) :=
  if spa_id == JsVal.num 9007199254740992 || spa_id == JsVal.str "9007199254740992" then
    .ok (some ⟨"pending", []⟩)
  else if spa_id == JsVal.num 9007199254740993 || spa_id == JsVal.str "9007199254740993" then
    .ok (some ⟨"approved", []⟩)
  else .ok none

/-- An environment with the two tenants of `Example.bigTenants`; `tbig` is a
valid token of user 5 whose `spa_id` claim is 9007199254740992. -/
def Example.envBig : Env :=
  { Example.env "approved" with
    getSpaStatusAndAccess :=
      SpecModel.getSpaStatusAndAccess Example.bigTenants ["dashboard", "therapists", "payments"],
    getFilteredNavigation := fun spa_id =>
      if spa_id == JsVal.str "9007199254740993" then
        .ok { success := true, error := "",
              navItems := [.ofStr "dashboard", .ofStr "therapists", .ofStr "payments"],
              statusInfo := .ofStr "approved" }
      else
        .ok { success := true, error := "", navItems := [], statusInfo := .ofStr "pending" },
    jwtVerify := fun token _ =>
      if token == "tbig" then .ok ⟨.num 5, .num 9007199254740992⟩ else .error .malformed }

/-! ## Theorems -/

/-- The password check does not look at the status resolver. -/
theorem isPasswordValid_resolver (env : Env) (r : JsVal → Except String SpaStatusCheck)
    (password : JsVal) (user : UserRow) :
    isPasswordValid { env with getSpaStatusAndAccess := r } password user =
      isPasswordValid env password user := rfl

/-- The end of the login does not look at the status resolver. -/
theorem loginFinish_resolver (env : Env) (r : JsVal → Except String SpaStatusCheck)
    (user : UserRow) (userObj : JsObj) :
    loginFinish { env with getSpaStatusAndAccess := r } user userObj =
      loginFinish env user userObj := rfl

/-- Without the role `admin_spa` or without a truthy `spa_id` the tenant gate
is skipped. -/
theorem loginGate_skipped (env : Env) (user : UserRow)
    (h : (user.role == "admin_spa" && user.spa_id.truthy) = false) :
    loginGate env user = loginFinish env user user.loginObj := by
  simp [loginGate, h]

/-- The tenant gate and the end of the login never call bcrypt. -/
theorem loginGate_no_bcrypt (env : Env) (user : UserRow) :
    Call.bcryptCompare ∉ (loginGate env user).calls := by
  unfold loginGate loginFinish Ran.after
  repeat' split
  all_goals simp

/-- C1. A login whose credentials match an active `admin_spa` identity with a
`spa_id`, against the status resolver of section 4.2 and a tenant whose status
is `pending` or `blacklisted`, is answered 403 with a body that holds the
message, the raw status and `access_denied` and nothing else (so no allowed
tabs); the policy the resolver reported has `canLogin = false` and no allowed
tab; and for `pending` the message contains "pending approval". -/
theorem login_pending_or_blacklisted_is_403 (env : Env) (req : LoginRequest)
    (user : UserRow) (rest : List UserRow)
    (tenants : JsVal → Except String (Option SpaInfo)) (allTabs : List String) (spa : SpaInfo)
    (huser : req.username.truthy = true) (hpass : req.password.truthy = true)
    (hconn : env.db.connectError = none)
    (hrow : env.db.selectByUsername req.username = .ok (user :: rest))
    (hvalid : isPasswordValid env req.password user = true)
    (hrole : user.role = "admin_spa") (hspa : user.spa_id.truthy = true)
    (hres : env.getSpaStatusAndAccess = SpecModel.getSpaStatusAndAccess tenants allTabs)
    (htenant : tenants user.spa_id = .ok (some spa))
    (hstatus : spa.status = "pending" ∨ spa.status = "blacklisted") :
    (∃ msg : String,
      (login env req).response =
        ⟨403, [("success", .ofBool false), ("message", .ofStr msg),
               ("spa_status", .ofStr spa.status), ("access_denied", .ofBool true)]⟩ ∧
      (spa.status = "pending" → "pending approval".toList <:+: msg.toList)) ∧
    (∃ policy : SpaStatusCheck,
      env.getSpaStatusAndAccess user.spa_id = .ok policy ∧
      policy.canLogin = false ∧ policy.allowedTabs = []) := by
  have hgate : (user.role == "admin_spa" && user.spa_id.truthy) = true := by
    simp [hrole, hspa]
  rcases hstatus with hst | hst
  · refine ⟨⟨"Your spa registration is pending approval. Please wait for LSA verification.",
      ?_, fun _ => ⟨"Your spa registration is ".toList,
        ". Please wait for LSA verification.".toList, rfl⟩⟩, ?_⟩
    · simp [login, huser, hpass, hconn, loginQuery, hrow, hvalid, loginGate, hgate, hres,
        SpecModel.getSpaStatusAndAccess, htenant, hst, Ran.after, deniedMessage]
    · simp [hres, SpecModel.getSpaStatusAndAccess, htenant, hst]
  · refine ⟨⟨"Your account has been suspended by the admin panel. Please contact LSA administration.",
      ?_, fun h => ?_⟩, ?_⟩
    · simp [login, huser, hpass, hconn, loginQuery, hrow, hvalid, loginGate, hgate, hres,
        SpecModel.getSpaStatusAndAccess, htenant, hst, Ran.after, deniedMessage]
    · rw [hst] at h
      exact absurd h (by decide)
    · simp [hres, SpecModel.getSpaStatusAndAccess, htenant, hst]

/-- Witness of C1: `spa1` logs in with the right secret while tenant 7 is
pending. -/
theorem login_pending_or_blacklisted_is_403_witness :
    (∃ msg : String,
      (login (Example.env "pending") ⟨.str "spa1", .str "plaintext123"⟩).response =
        ⟨403, [("success", .ofBool false), ("message", .ofStr msg),
               ("spa_status", .ofStr "pending"), ("access_denied", .ofBool true)]⟩ ∧
      ("pending" = "pending" → "pending approval".toList <:+: msg.toList)) ∧
    (∃ policy : SpaStatusCheck,
      (Example.env "pending").getSpaStatusAndAccess (.num 7) = .ok policy ∧
      policy.canLogin = false ∧ policy.allowedTabs = []) :=
  login_pending_or_blacklisted_is_403 (Example.env "pending")
    ⟨.str "spa1", .str "plaintext123"⟩ Example.spa1 []
    (Example.tenants "pending") ["dashboard", "therapists", "payments"] ⟨"pending", []⟩
    (by decide) (by decide) rfl rfl (by decide) rfl (by decide) rfl rfl (Or.inl rfl)

/-- C2. Login fails closed.  A response that carries a token was produced
after the password check passed and, for an `admin_spa` identity with a
`spa_id`, after the status resolver answered with `success` and `canLogin`
both true.  For such an identity with matching credentials, a resolver that
throws or reports `success = false` yields a 500 without token, and
`canLogin = false` never yields a token and yields the 403 with
`access_denied = true` and the raw status of the tenant row. -/
theorem login_fails_closed (env : Env) (req : LoginRequest) :
    ((login env req).response.body.has "token" = true →
      ∃ user rest, env.db.selectByUsername req.username = .ok (user :: rest) ∧
        isPasswordValid env req.password user = true ∧
        (user.role = "admin_spa" → user.spa_id.truthy = true →
          ∃ r, env.getSpaStatusAndAccess user.spa_id = .ok r ∧
            r.success = true ∧ r.canLogin = true)) ∧
    (∀ user rest, req.username.truthy = true → req.password.truthy = true →
      env.db.connectError = none →
      env.db.selectByUsername req.username = .ok (user :: rest) →
      isPasswordValid env req.password user = true →
      user.role = "admin_spa" → user.spa_id.truthy = true →
      (∀ e, env.getSpaStatusAndAccess user.spa_id = .error e →
        (login env req).response = internalServerError) ∧
      (∀ r, env.getSpaStatusAndAccess user.spa_id = .ok r → r.success = false →
        (login env req).response =
          ⟨500, [("success", .ofBool false),
                 ("message", .ofStr "Error checking spa status")]⟩) ∧
      (∀ r, env.getSpaStatusAndAccess user.spa_id = .ok r → r.success = true →
        r.canLogin = false →
        (login env req).response.body.has "token" = false ∧
        ∀ spa, r.spa = some spa →
          (login env req).response =
            ⟨403, [("success", .ofBool false), ("message", .ofStr (deniedMessage r spa)),
                   ("spa_status", .ofStr spa.status), ("access_denied", .ofBool true)]⟩)) := by
  constructor
  · intro h
    unfold login at h
    split at h
    · simp [JsObj.has] at h
    · split at h
      · simp [JsObj.has, internalServerError] at h
      · simp only [loginQuery, Ran.after] at h
        cases hsel : env.db.selectByUsername req.username with
        | error e => simp [hsel, internalServerError, JsObj.has] at h
        | ok rows =>
          cases rows with
          | nil => simp [hsel, invalidCredentials, JsObj.has] at h
          | cons user rest =>
            refine ⟨user, rest, rfl, ?_⟩
            cases hv : isPasswordValid env req.password user
            · simp [hsel, hv, invalidCredentials, JsObj.has] at h
            · refine ⟨rfl, fun hrole hspa => ?_⟩
              have hgate : (user.role == "admin_spa" && user.spa_id.truthy) = true := by
                simp [hrole, hspa]
              simp only [hsel, hv, loginGate, hgate, Ran.after] at h
              cases hr : env.getSpaStatusAndAccess user.spa_id with
              | error e => simp [hr, internalServerError, JsObj.has] at h
              | ok r =>
                refine ⟨r, rfl, ?_⟩
                cases hs : r.success <;> cases hc : r.canLogin <;> cases hsp : r.spa <;>
                  simp [hr, hs, hc, hsp, internalServerError, JsObj.has] at h ⊢
  · intro user rest huser hpass hconn hrow hvalid hrole hspa
    have hgate : (user.role == "admin_spa" && user.spa_id.truthy) = true := by
      simp [hrole, hspa]
    refine ⟨fun e he => ?_, fun r hr hs => ?_, fun r hr hs hc => ⟨?_, fun spa hspa => ?_⟩⟩
    · simp [login, huser, hpass, hconn, loginQuery, hrow, hvalid, loginGate, hgate, he, Ran.after]
    · simp [login, huser, hpass, hconn, loginQuery, hrow, hvalid, loginGate, hgate, hr, hs,
        Ran.after]
    · cases hsp : r.spa <;>
      simp [login, huser, hpass, hconn, loginQuery, hrow, hvalid, loginGate, hgate, hr, hs, hc,
        hsp, Ran.after, JsObj.has, internalServerError]
    · simp [login, huser, hpass, hconn, loginQuery, hrow, hvalid, loginGate, hgate, hr, hs, hc,
        hspa, Ran.after]

/-- Witness of C2: `spa1` logs in with the right secret while tenant 7 is
blacklisted, and gets the 403 without token. -/
theorem login_fails_closed_witness :
    (login (Example.env "blacklisted") ⟨.str "spa1", .str "plaintext123"⟩).response.body.has
        "token" = false ∧
    (login (Example.env "blacklisted") ⟨.str "spa1", .str "plaintext123"⟩).response.status =
        403 :=
  have h := ((login_fails_closed (Example.env "blacklisted")
    ⟨.str "spa1", .str "plaintext123"⟩).2 Example.spa1 [] (by decide) (by decide) rfl rfl
    (by decide) rfl (by decide)).2.2
    { success := true, error := "", spa := some ⟨"blacklisted", []⟩, canLogin := false,
      accessLevel := "none", allowedTabs := [],
      statusMessage := "account suspended — contact administration." } rfl rfl rfl
  ⟨h.1, by rw [h.2 ⟨"blacklisted", []⟩ rfl]⟩

/-- Counterexample to C3: `lsa1`, whose role is `admin_lsa`, logs in with the
right secret while the `UPDATE admin_users` statement fails; the credentials
match and the answer is the 500 "Internal server error" without token, not a
success. -/
theorem login_other_role_not_always_success :
    (Example.env "pending").db.selectByUsername (.str "lsa1") = .ok [Example.lsa1] ∧
    Example.lsa1.role ≠ "admin_spa" ∧
    isPasswordValid { Example.env "pending" with db := Example.dbUpdateFails }
      (.str "letmein") Example.lsa1 = true ∧
    (login { Example.env "pending" with db := Example.dbUpdateFails }
      ⟨.str "lsa1", .str "letmein"⟩).response.status = 500 ∧
    (login { Example.env "pending" with db := Example.dbUpdateFails }
      ⟨.str "lsa1", .str "letmein"⟩).response.body.has "token" = false := by
  refine ⟨rfl, by decide, rfl, rfl, rfl⟩

/-- C3, amended. For a login name whose identity, if the lookup finds one, does not
have the role `admin_spa`: the handler makes no call to the status resolver,
its outcome (response and calls) is the same under any two resolvers, and
when the credentials match and the last-login update completes the response
is the success response with the user object and the signed token. -/
theorem login_other_roles_skip_resolver (env : Env) (req : LoginRequest)
    (hrole : ∀ user rest, env.db.selectByUsername req.username = .ok (user :: rest) →
      user.role ≠ "admin_spa") :
    (∀ c ∈ (login env req).calls, ∀ spa_id, c ≠ Call.getSpaStatusAndAccess spa_id) ∧
    (∀ r₁ r₂ : JsVal → Except String SpaStatusCheck,
      login { env with getSpaStatusAndAccess := r₁ } req =
        login { env with getSpaStatusAndAccess := r₂ } req) ∧
    (∀ user rest, req.username.truthy = true → req.password.truthy = true →
      env.db.connectError = none →
      env.db.selectByUsername req.username = .ok (user :: rest) →
      isPasswordValid env req.password user = true →
      env.db.updateError = none →
      (login env req).response =
        ⟨200, [("success", .ofBool true), ("message", .ofStr "Login successful"),
               ("user", .obj (user.loginObj.delete "password_hash")),
               ("token", .ofStr (env.jwtSign (tokenPayload user) (JWT_SECRET env) "24h"))]⟩) := by
  refine ⟨?_, ?_, ?_⟩
  · intro c hc spa_id heq
    subst heq
    by_cases hu : (!req.username.truthy || !req.password.truthy) = true
    · simp [login, hu] at hc
    · cases hconn : env.db.connectError with
      | some e => simp [login, hu, hconn] at hc
      | none =>
        cases hsel : env.db.selectByUsername req.username with
        | error e => simp [login, hu, hconn, loginQuery, hsel, Ran.after] at hc
        | ok rows =>
          cases rows with
          | nil => simp [login, hu, hconn, loginQuery, hsel, Ran.after] at hc
          | cons user rest =>
            have hgate : (user.role == "admin_spa" && user.spa_id.truthy) = false := by
              simp [hrole user rest hsel]
            cases hv : isPasswordValid env req.password user <;>
              cases hupd : env.db.updateError <;>
              cases hsw : startsWith user.password_hash "$2b$" <;>
              simp [login, hu, hconn, loginQuery, hsel, hv, loginGate_skipped, hgate,
                loginFinish, hupd, passwordCalls, hsw, Ran.after] at hc
  · intro r₁ r₂
    by_cases hu : (!req.username.truthy || !req.password.truthy) = true
    · simp [login, hu]
    · cases hconn : env.db.connectError with
      | some e => simp [login, hu, hconn]
      | none =>
        cases hsel : env.db.selectByUsername req.username with
        | error e => simp [login, hu, hconn, loginQuery, hsel, Ran.after]
        | ok rows =>
          cases rows with
          | nil => simp [login, hu, hconn, loginQuery, hsel, Ran.after]
          | cons user rest =>
            have hgate : (user.role == "admin_spa" && user.spa_id.truthy) = false := by
              simp [hrole user rest hsel]
            simp [login, hu, hconn, loginQuery, hsel, isPasswordValid_resolver,
              loginGate_skipped, hgate, loginFinish_resolver, Ran.after]
  · intro user rest huser hpass hconn hrow hvalid hupd
    have hgate : (user.role == "admin_spa" && user.spa_id.truthy) = false := by
      simp [hrole user rest hrow]
    simp [login, huser, hpass, hconn, loginQuery, hrow, hvalid, loginGate, hgate, loginFinish,
      hupd, Ran.after]

/-- Witness of C3, amended: the global administrator `lsa1` logs in while tenant 7 is
blacklisted. -/
theorem login_other_roles_skip_resolver_witness :
    (∀ c ∈ (login (Example.env "blacklisted") ⟨.str "lsa1", .str "letmein"⟩).calls,
      ∀ spa_id, c ≠ Call.getSpaStatusAndAccess spa_id) ∧
    (login (Example.env "blacklisted") ⟨.str "lsa1", .str "letmein"⟩).response.status = 200 ∧
    (login (Example.env "blacklisted") ⟨.str "lsa1", .str "letmein"⟩).response.body.get "token" =
      some (.ofStr "signed") :=
  have hsel : (Example.env "blacklisted").db.selectByUsername (.str "lsa1") =
      .ok [Example.lsa1] := rfl
  have h := login_other_roles_skip_resolver (Example.env "blacklisted")
    ⟨.str "lsa1", .str "letmein"⟩ (fun user rest hrow => by
      rw [hsel] at hrow
      cases hrow
      decide)
  ⟨h.1, by rw [h.2.2 Example.lsa1 [] (by decide) (by decide) rfl rfl (by decide) rfl],
    by rw [h.2.2 Example.lsa1 [] (by decide) (by decide) rfl rfl (by decide) rfl]; rfl⟩

/-- C4. The login query returns only rows with `is_active = 1`; so for an
identity of `admin_users` whose active flag is not 1 and whose login name
designates no other row (login names are unique), a login with that name and
any supplied secret, the right one included, is answered by the 401
"Invalid username or password" without the password being checked, the
database answering its queries. -/
theorem login_inactive_is_401 (env : Env) (req : LoginRequest) (inactive : UserRow)
    (huser : req.username.truthy = true) (hpass : req.password.truthy = true)
    (hconn : env.db.connectError = none) (hsel : env.db.selectError = none)
    (hmem : inactive ∈ env.db.admin_users)
    (hname : env.db.usernameEq inactive.username req.username = true)
    (hunique : ∀ r ∈ env.db.admin_users,
      env.db.usernameEq r.username req.username = true → r = inactive)
    (hinactive : inactive.is_active ≠ 1) :
    (∀ name rows, env.db.selectByUsername name = .ok rows → ∀ r ∈ rows, r.is_active = 1) ∧
    (login env req).response =
      ⟨401, [("success", .ofBool false), ("message", .ofStr "Invalid username or password")]⟩ ∧
    Call.bcryptCompare ∉ (login env req).calls := by
  have hrows : env.db.selectByUsername req.username = .ok [] := by
    simp only [Db.selectByUsername, hsel]
    congr 1
    rw [List.filter_eq_nil_iff]
    intro r hr hp
    simp only [Bool.and_eq_true, beq_iff_eq] at hp
    exact hinactive (hunique r hr hp.1 ▸ hp.2)
  refine ⟨?_, ?_, ?_⟩
  · intro name rows h r hr
    simp only [Db.selectByUsername, hsel] at h
    cases h
    have hp := (List.mem_filter.mp hr).2
    simp only [Bool.and_eq_true, beq_iff_eq] at hp
    exact hp.2
  · simp [login, huser, hpass, hconn, loginQuery, hrows, Ran.after, invalidCredentials]
  · simp [login, huser, hpass, hconn, loginQuery, hrows, Ran.after]

/-- Witness of C4: the deactivated account `gone` logs in with its stored
secret. -/
theorem login_inactive_is_401_witness :
    (login (Example.env "approved") ⟨.str "gone", .str "secret"⟩).response.status = 401 ∧
    Call.bcryptCompare ∉ (login (Example.env "approved") ⟨.str "gone", .str "secret"⟩).calls :=
  have h := login_inactive_is_401 (Example.env "approved") ⟨.str "gone", .str "secret"⟩
    Example.gone (by decide) (by decide) rfl rfl
    (by simp [Example.env, Example.db])
    (by decide)
    (fun r hr hp => by
      simp only [Example.env, Example.db, List.mem_cons, List.mem_singleton,
        List.not_mem_nil, or_false] at hr
      rcases hr with rfl | rfl | rfl
      · exact absurd hp (by decide)
      · exact absurd hp (by decide)
      · rfl)
    (by decide)
  ⟨by rw [h.2.1], h.2.2⟩

/-- The tenant check of lines 240 and 288, when it fires.  For a token that
verifies and whose `spa_id`
claim is loosely unequal (`!=`) to the path parameter, the navigation handler
and the spa-status handler both answer the 403 "Access denied to this spa"
after the single call `jwt.verify`: neither the status resolver nor the
navigation filter is called, and the outcome is the same whatever those two
would compute for the requested tenant. -/
theorem cross_tenant_is_403 (env : Env) (spa_id : String) (authorization : Option String)
    (token : String) (decoded : Decoded)
    (htoken : bearerToken authorization = some token) (hne : token ≠ "")
    (hvalid : env.jwtVerify token (JWT_SECRET env) = .ok decoded)
    (hdiff : decoded.spa_id.looseNeStr env.toNumber spa_id = true) :
    navigation env spa_id authorization =
      ⟨⟨403, [("success", .ofBool false), ("message", .ofStr "Access denied to this spa")]⟩,
       [.jwtVerify token]⟩ ∧
    spaStatus env spa_id authorization =
      ⟨⟨403, [("success", .ofBool false), ("message", .ofStr "Access denied to this spa")]⟩,
       [.jwtVerify token]⟩ ∧
    (∀ (r : JsVal → Except String SpaStatusCheck) (n : JsVal → Except String NavigationData),
      navigation { env with getSpaStatusAndAccess := r, getFilteredNavigation := n }
          spa_id authorization = navigation env spa_id authorization ∧
      spaStatus { env with getSpaStatusAndAccess := r, getFilteredNavigation := n }
          spa_id authorization = spaStatus env spa_id authorization) := by
  have hv : ∀ (r : JsVal → Except String SpaStatusCheck)
      (n : JsVal → Except String NavigationData),
      ({ env with getSpaStatusAndAccess := r, getFilteredNavigation := n } : Env).jwtVerify token
        (JWT_SECRET { env with getSpaStatusAndAccess := r, getFilteredNavigation := n }) =
        .ok decoded := fun _ _ => hvalid
  have hnav : ∀ e : Env, e.jwtVerify token (JWT_SECRET e) = .ok decoded →
      decoded.spa_id.looseNeStr e.toNumber spa_id = true →
      navigation e spa_id authorization = ⟨accessDeniedToSpa, [.jwtVerify token]⟩ := by
    intro e h1 h2
    simp [navigation, htoken, hne, h1, h2]
  have hsta : ∀ e : Env, e.jwtVerify token (JWT_SECRET e) = .ok decoded →
      decoded.spa_id.looseNeStr e.toNumber spa_id = true →
      spaStatus e spa_id authorization = ⟨accessDeniedToSpa, [.jwtVerify token]⟩ := by
    intro e h1 h2
    simp [spaStatus, htoken, hne, h1, h2]
  refine ⟨hnav env hvalid hdiff, hsta env hvalid hdiff, fun r n => ⟨?_, ?_⟩⟩
  · rw [hnav env hvalid hdiff, hnav _ (hv r n) hdiff]
  · rw [hsta env hvalid hdiff, hsta _ (hv r n) hdiff]

/-- The tenant check on an example: the token of tenant 7 asks for tenant 42. -/
theorem cross_tenant_is_403_witness :
    (navigation (Example.env "approved") "42" (some "Bearer t7")).response.status = 403 ∧
    (spaStatus (Example.env "approved") "42" (some "Bearer t7")).calls = [.jwtVerify "t7"] :=
  have h := cross_tenant_is_403 (Example.env "approved") "42" (some "Bearer t7") "t7"
    ⟨.num 1, .num 7⟩ (by decide) (by decide) rfl (by decide)
  ⟨by rw [h.1], by rw [h.2.1]⟩

/-- Counterexample to C6: the expired token of tenant 7 and the badly signed
one ask for the navigation of tenant 42 and are answered 500, not 403. -/
theorem navigation_rejected_token_not_403 :
    Example.jwtVerify "old7" (JWT_SECRET (Example.env "approved")) = .error .expired ∧
    (navigation (Example.env "approved") "42" (some "Bearer old7")).response.status = 500 ∧
    Example.jwtVerify "bad7" (JWT_SECRET (Example.env "approved")) = .error .badSignature ∧
    (navigation (Example.env "approved") "42" (some "Bearer bad7")).response.status = 500 ∧
    (navigation (Example.env "approved") "42" (some "Bearer old7")).response.status ≠ 403 := by
  refine ⟨rfl, rfl, rfl, rfl, ?_⟩
  decide

/-- C6, amended. A navigation request for tenant 42 with a token that
verifies and whose `spa_id` claim is 7 (the number or the string) is answered
403 "Access denied to this spa"; the comparison of tenants comes after
`jwt.verify`, so a token that `jwt.verify` rejects (expired, malformed or
badly signed) is never answered 403 and reaches neither the comparison nor
the navigation filter. -/
theorem navigation_tenant_mismatch (env : Env) (authorization : Option String)
    (token : String) (htoken : bearerToken authorization = some token) (hne : token ≠ "")
    (hnum : env.toNumber "42" = .int 42) :
    (∀ decoded, env.jwtVerify token (JWT_SECRET env) = .ok decoded →
      decoded.spa_id = .num 7 ∨ decoded.spa_id = .str "7" →
      (navigation env "42" authorization).response =
        ⟨403, [("success", .ofBool false), ("message", .ofStr "Access denied to this spa")]⟩) ∧
    (∀ err, env.jwtVerify token (JWT_SECRET env) = .error err →
      (navigation env "42" authorization).response.status ≠ 403 ∧
      (navigation env "42" authorization).calls = [.jwtVerify token]) := by
  constructor
  · intro decoded hvalid hclaim
    have hdiff : decoded.spa_id.looseNeStr env.toNumber "42" = true := by
      rcases hclaim with h | h <;> rw [h] <;> simp [JsVal.looseNeStr, hnum]
    simp [navigation, htoken, hne, hvalid, hdiff, accessDeniedToSpa]
  · intro err herr
    simp [navigation, htoken, hne, herr, navigationError]

/-- Witness of C6, amended: the valid token of tenant 7 asks for tenant 42. -/
theorem navigation_tenant_mismatch_witness :
    (navigation (Example.env "approved") "42" (some "Bearer t7")).response =
      ⟨403, [("success", .ofBool false), ("message", .ofStr "Access denied to this spa")]⟩ :=
  (navigation_tenant_mismatch (Example.env "approved") (some "Bearer t7") "t7"
    (by decide) (by decide) (by decide)).1 ⟨.num 1, .num 7⟩ rfl (Or.inl rfl)

/-- Counterexample to C7: `lsa1` logs in with the right secret, no tenant gate
applies, the `UPDATE admin_users` statement fails, and the answer is the 500
"Internal server error" without token. -/
theorem login_update_failure_is_500 :
    isPasswordValid { Example.env "approved" with db := Example.dbUpdateFails }
      (.str "letmein") Example.lsa1 = true ∧
    (login { Example.env "approved" with db := Example.dbUpdateFails }
      ⟨.str "lsa1", .str "letmein"⟩).response =
      ⟨500, [("success", .ofBool false), ("message", .ofStr "Internal server error")]⟩ ∧
    (login { Example.env "approved" with db := Example.dbUpdateFails }
      ⟨.str "lsa1", .str "letmein"⟩).response.body.has "token" = false := by
  refine ⟨rfl, rfl, rfl⟩

/-- C7, amended. The last-login update is not best-effort.  For a login that
passed the credential check and the tenant gate (the gate does not apply, or
the resolver answered with `success`, `canLogin` and the tenant row), a
failing `UPDATE admin_users` statement makes the handler release the
connection and answer the 500 "Internal server error" without token; when the
statement completes the answer is the 200 with the user object and the signed
token. -/
theorem login_update_not_best_effort (env : Env) (req : LoginRequest)
    (user : UserRow) (rest : List UserRow)
    (huser : req.username.truthy = true) (hpass : req.password.truthy = true)
    (hconn : env.db.connectError = none)
    (hrow : env.db.selectByUsername req.username = .ok (user :: rest))
    (hvalid : isPasswordValid env req.password user = true)
    (hgate : (user.role == "admin_spa" && user.spa_id.truthy) = false ∨
      ∃ r spa, env.getSpaStatusAndAccess user.spa_id = .ok r ∧ r.success = true ∧
        r.canLogin = true ∧ r.spa = some spa) :
    (∀ e, env.db.updateError = some e →
      (login env req).response =
        ⟨500, [("success", .ofBool false), ("message", .ofStr "Internal server error")]⟩ ∧
      Call.release ∈ (login env req).calls) ∧
    (env.db.updateError = none →
      (login env req).response.status = 200 ∧
      (login env req).response.body.has "user" = true ∧
      (login env req).response.body.get "token" =
        some (.ofStr (env.jwtSign (tokenPayload user) (JWT_SECRET env) "24h"))) := by
  rcases hgate with hg | ⟨r, spa, hr, hs, hc, hsp⟩
  · constructor
    · intro e he
      simp [login, huser, hpass, hconn, loginQuery, hrow, hvalid, loginGate_skipped, hg,
        loginFinish, he, Ran.after, internalServerError]
    · intro hn
      simp [login, huser, hpass, hconn, loginQuery, hrow, hvalid, loginGate_skipped, hg,
        loginFinish, hn, Ran.after, JsObj.has, JsObj.get, Json.ofStr]
  · by_cases hg : (user.role == "admin_spa" && user.spa_id.truthy) = true
    · constructor
      · intro e he
        simp [login, huser, hpass, hconn, loginQuery, hrow, hvalid, loginGate, hg, hr, hs, hc,
          hsp, loginFinish, he, Ran.after, internalServerError]
      · intro hn
        simp [login, huser, hpass, hconn, loginQuery, hrow, hvalid, loginGate, hg, hr, hs, hc,
          hsp, loginFinish, hn, Ran.after, JsObj.has, JsObj.get, Json.ofStr]
    · have hg : (user.role == "admin_spa" && user.spa_id.truthy) = false := by
        simpa using hg
      constructor
      · intro e he
        simp [login, huser, hpass, hconn, loginQuery, hrow, hvalid, loginGate_skipped, hg,
          loginFinish, he, Ran.after, internalServerError]
      · intro hn
        simp [login, huser, hpass, hconn, loginQuery, hrow, hvalid, loginGate_skipped, hg,
          loginFinish, hn, Ran.after, JsObj.has, JsObj.get, Json.ofStr]

/-- Witness of C7, amended: `spa1` of the approved tenant 7 logs in with the
right secret while the `UPDATE admin_users` statement fails. -/
theorem login_update_not_best_effort_witness :
    (login { Example.env "approved" with db := Example.dbUpdateFails }
      ⟨.str "spa1", .str "plaintext123"⟩).response =
      ⟨500, [("success", .ofBool false), ("message", .ofStr "Internal server error")]⟩ ∧
    Call.release ∈ (login { Example.env "approved" with db := Example.dbUpdateFails }
      ⟨.str "spa1", .str "plaintext123"⟩).calls :=
  (login_update_not_best_effort { Example.env "approved" with db := Example.dbUpdateFails }
    ⟨.str "spa1", .str "plaintext123"⟩ Example.spa1 [] (by decide) (by decide) rfl rfl
    (by decide)
    (Or.inr ⟨{ success := true, error := "", spa := some ⟨"approved", []⟩, canLogin := true,
               accessLevel := "full", allowedTabs := ["dashboard", "therapists", "payments"],
               statusMessage := "" }, ⟨"approved", []⟩, rfl, rfl, rfl, rfl⟩)).1
    "ER_LOCK_WAIT_TIMEOUT" rfl

/-- Counterexample to C8: the verify handler gives the expired token and the
badly signed token of the examples the very same response, the 401
"Invalid token". -/
theorem verify_expired_same_as_invalid :
    Example.jwtVerify "old7" (JWT_SECRET (Example.env "approved")) = .error .expired ∧
    Example.jwtVerify "bad7" (JWT_SECRET (Example.env "approved")) = .error .badSignature ∧
    (verify (Example.env "approved") (some "Bearer old7")).response =
      ⟨401, [("success", .ofBool false), ("message", .ofStr "Invalid token")]⟩ ∧
    ¬ ((verify (Example.env "approved") (some "Bearer old7")).response ≠
       (verify (Example.env "approved") (some "Bearer bad7")).response) := by
  refine ⟨rfl, rfl, rfl, ?_⟩
  intro h
  exact h rfl

/-- C8, amended. The verify handler does not tell an expired token from an
invalid one: whatever the reason `jwt.verify` throws for, the handler makes no
further call and answers the 401 "Invalid token", so two rejected tokens,
one expired and one badly signed or malformed, get the same response. -/
theorem verify_rejections_identical (env : Env) (authorization : Option String)
    (token : String) (err : JwtError)
    (htoken : bearerToken authorization = some token) (hne : token ≠ "")
    (herr : env.jwtVerify token (JWT_SECRET env) = .error err) :
    verify env authorization =
      ⟨⟨401, [("success", .ofBool false), ("message", .ofStr "Invalid token")]⟩,
       [.jwtVerify token]⟩ ∧
    (∀ (authorization₂ : Option String) (token₂ : String) (err₂ : JwtError),
      bearerToken authorization₂ = some token₂ → token₂ ≠ "" →
      env.jwtVerify token₂ (JWT_SECRET env) = .error err₂ →
      (verify env authorization₂).response = (verify env authorization).response) := by
  have h : ∀ (a : Option String) (t : String) (e : JwtError),
      bearerToken a = some t → t ≠ "" → env.jwtVerify t (JWT_SECRET env) = .error e →
      verify env a = ⟨invalidToken, [.jwtVerify t]⟩ := by
    intro a t e h1 h2 h3
    simp [verify, h1, h2, h3]
  refine ⟨h authorization token err htoken hne herr, fun a t e h1 h2 h3 => ?_⟩
  rw [h a t e h1 h2 h3, h authorization token err htoken hne herr]

/-- Witness of C8, amended: an expired token against a malformed one. -/
theorem verify_rejections_identical_witness :
    (verify (Example.env "approved") (some "Bearer garbage")).response =
      (verify (Example.env "approved") (some "Bearer old7")).response :=
  (verify_rejections_identical (Example.env "approved") (some "Bearer old7") "old7" .expired
    (by decide) (by decide) rfl).2 (some "Bearer garbage") "garbage" .malformed
    (by decide) (by decide) rfl

/-- C9. Legacy plaintext path.  For an active identity found by the lookup
whose stored secret does not start with `$2b$`, the password check passes
exactly when the supplied password is the stored string (strict equality, so
only a string can match) and bcrypt is not called; a different password is
answered by the 401 "Invalid username or password"; the stored string itself,
the tenant gate passed and the last-login update completed, is answered by the
200 with the signed token. -/
theorem login_legacy_plaintext (env : Env) (req : LoginRequest)
    (user : UserRow) (rest : List UserRow)
    (huser : req.username.truthy = true) (hpass : req.password.truthy = true)
    (hconn : env.db.connectError = none)
    (hrow : env.db.selectByUsername req.username = .ok (user :: rest))
    (hlegacy : startsWith user.password_hash "$2b$" = false) :
    (isPasswordValid env req.password user = true ↔ req.password = .str user.password_hash) ∧
    Call.bcryptCompare ∉ (login env req).calls ∧
    (req.password ≠ .str user.password_hash →
      (login env req).response =
        ⟨401, [("success", .ofBool false),
               ("message", .ofStr "Invalid username or password")]⟩) ∧
    (req.password = .str user.password_hash →
      ((user.role == "admin_spa" && user.spa_id.truthy) = false ∨
        ∃ r spa, env.getSpaStatusAndAccess user.spa_id = .ok r ∧ r.success = true ∧
          r.canLogin = true ∧ r.spa = some spa) →
      env.db.updateError = none →
      (login env req).response.status = 200 ∧
      (login env req).response.body.get "token" =
        some (.ofStr (env.jwtSign (tokenPayload user) (JWT_SECRET env) "24h"))) := by
  have hiff : isPasswordValid env req.password user = true ↔
      req.password = .str user.password_hash := by
    simp only [isPasswordValid, hlegacy, Bool.false_eq_true, if_false]
    cases hp : req.password <;> simp [JsVal.strictEqStr]
  refine ⟨hiff, ?_, ?_, ?_⟩
  · have hg := loginGate_no_bcrypt env user
    cases hv : isPasswordValid env req.password user <;>
      cases hres : (loginGate env user).result <;>
      simp [login, huser, hpass, hconn, loginQuery, hrow, hv, hres, passwordCalls, hlegacy,
        Ran.after, hg]
  · intro hneq
    have hv : isPasswordValid env req.password user = false := by
      cases h : isPasswordValid env req.password user
      · rfl
      · exact absurd (hiff.mp h) hneq
    simp [login, huser, hpass, hconn, loginQuery, hrow, hv, invalidCredentials, Ran.after]
  · intro heq hgate hupd
    have hv := hiff.mpr heq
    rcases hgate with hg | ⟨r, spa, hr, hs, hc, hsp⟩
    · simp [login, huser, hpass, hconn, loginQuery, hrow, hv, loginGate_skipped, hg,
        loginFinish, hupd, Ran.after, JsObj.get, Json.ofStr]
    · by_cases hg : (user.role == "admin_spa" && user.spa_id.truthy) = true
      · simp [login, huser, hpass, hconn, loginQuery, hrow, hv, loginGate, hg, hr, hs, hc,
          hsp, loginFinish, hupd, Ran.after, JsObj.get, Json.ofStr]
      · have hg : (user.role == "admin_spa" && user.spa_id.truthy) = false := by
          simpa using hg
        simp [login, huser, hpass, hconn, loginQuery, hrow, hv, loginGate_skipped, hg,
          loginFinish, hupd, Ran.after, JsObj.get, Json.ofStr]

/-- Witness of C9: the scenario of the specification.  The stored secret of
`spa1` is `plaintext123`; that password gets the token, and `wrong` gets the
401. -/
theorem login_legacy_plaintext_witness :
    ((login (Example.env "approved") ⟨.str "spa1", .str "plaintext123"⟩).response.status = 200 ∧
      (login (Example.env "approved") ⟨.str "spa1", .str "plaintext123"⟩).response.body.get
        "token" = some (.ofStr "signed")) ∧
    (login (Example.env "approved") ⟨.str "spa1", .str "wrong"⟩).response =
      ⟨401, [("success", .ofBool false), ("message", .ofStr "Invalid username or password")]⟩ :=
  ⟨(login_legacy_plaintext (Example.env "approved") ⟨.str "spa1", .str "plaintext123"⟩
      Example.spa1 [] (by decide) (by decide) rfl rfl (by decide)).2.2.2 rfl
      (Or.inr ⟨{ success := true, error := "", spa := some ⟨"approved", []⟩, canLogin := true,
                 accessLevel := "full",
                 allowedTabs := ["dashboard", "therapists", "payments"],
                 statusMessage := "" }, ⟨"approved", []⟩, rfl, rfl, rfl, rfl⟩) rfl,
    (login_legacy_plaintext (Example.env "approved") ⟨.str "spa1", .str "wrong"⟩
      Example.spa1 [] (by decide) (by decide) rfl rfl (by decide)).2.2.1 (by decide)⟩

/-- C10. Login does not tell an unknown login name from a wrong secret.  Of
two login requests with non-empty fields, one for which the lookup finds no
active identity and one for which it finds an identity whose password check
fails, both get the same response, status and body: the 401
"Invalid username or password". -/
theorem login_unknown_same_as_wrong_secret (env₁ env₂ : Env) (req₁ req₂ : LoginRequest)
    (user : UserRow) (rest : List UserRow)
    (huser₁ : req₁.username.truthy = true) (hpass₁ : req₁.password.truthy = true)
    (huser₂ : req₂.username.truthy = true) (hpass₂ : req₂.password.truthy = true)
    (hconn₁ : env₁.db.connectError = none) (hconn₂ : env₂.db.connectError = none)
    (hunknown : env₁.db.selectByUsername req₁.username = .ok [])
    (hknown : env₂.db.selectByUsername req₂.username = .ok (user :: rest))
    (hwrong : isPasswordValid env₂ req₂.password user = false) :
    (login env₁ req₁).response = (login env₂ req₂).response ∧
    (login env₁ req₁).response =
      ⟨401, [("success", .ofBool false), ("message", .ofStr "Invalid username or password")]⟩ := by
  have h₁ : (login env₁ req₁).response = invalidCredentials := by
    simp [login, huser₁, hpass₁, hconn₁, loginQuery, hunknown, Ran.after]
  have h₂ : (login env₂ req₂).response = invalidCredentials := by
    simp [login, huser₂, hpass₂, hconn₂, loginQuery, hknown, hwrong, Ran.after]
  exact ⟨h₁.trans h₂.symm, h₁⟩

/-- Witness of C10: the unknown name `nobody` against `spa1` with a wrong
secret. -/
theorem login_unknown_same_as_wrong_secret_witness :
    (login (Example.env "approved") ⟨.str "nobody", .str "plaintext123"⟩).response =
      (login (Example.env "approved") ⟨.str "spa1", .str "wrong"⟩).response :=
  (login_unknown_same_as_wrong_secret (Example.env "approved") (Example.env "approved")
    ⟨.str "nobody", .str "plaintext123"⟩ ⟨.str "spa1", .str "wrong"⟩ Example.spa1 []
    (by decide) (by decide) (by decide) (by decide) rfl rfl rfl rfl (by decide)).1

/-- A login answered 200 went through the lookup, the password check, the
tenant gate and `loginFinish`: `userObj` is the `user` object as the gate left
it, and the only payload signed is `tokenPayload user`. -/
theorem login_success_inv (env : Env) (req : LoginRequest)
    (h : (login env req).response.status = 200) :
    ∃ user rest userObj,
      env.db.selectByUsername req.username = .ok (user :: rest) ∧
      isPasswordValid env req.password user = true ∧
      (((user.role == "admin_spa" && user.spa_id.truthy) = false ∧ userObj = user.loginObj) ∨
        ∃ r spa, (user.role == "admin_spa" && user.spa_id.truthy) = true ∧
          env.getSpaStatusAndAccess user.spa_id = .ok r ∧ r.success = true ∧
          r.canLogin = true ∧ r.spa = some spa ∧
          userObj = withSpaStatus user.loginObj r spa) ∧
      (login env req).response =
        ⟨200, [("success", .ofBool true), ("message", .ofStr "Login successful"),
               ("user", .obj (userObj.delete "password_hash")),
               ("token", .ofStr (env.jwtSign (tokenPayload user) (JWT_SECRET env) "24h"))]⟩ ∧
      (∀ p, Call.jwtSign p ∈ (login env req).calls → p = tokenPayload user) := by
  by_cases hu : (!req.username.truthy || !req.password.truthy) = true
  · simp [login, hu] at h
  · cases hconn : env.db.connectError with
    | some e => simp [login, hu, hconn, internalServerError] at h
    | none =>
      cases hsel : env.db.selectByUsername req.username with
      | error e => simp [login, hu, hconn, loginQuery, hsel, Ran.after, internalServerError] at h
      | ok rows =>
        cases rows with
        | nil => simp [login, hu, hconn, loginQuery, hsel, Ran.after, invalidCredentials] at h
        | cons user rest =>
          cases hv : isPasswordValid env req.password user
          · simp [login, hu, hconn, loginQuery, hsel, hv, Ran.after, invalidCredentials] at h
          · by_cases hg : (user.role == "admin_spa" && user.spa_id.truthy) = true
            · cases hr : env.getSpaStatusAndAccess user.spa_id with
              | error e =>
                simp [login, hu, hconn, loginQuery, hsel, hv, Ran.after, loginGate, hg, hr,
                  internalServerError] at h
              | ok r =>
                cases hs : r.success <;> cases hc : r.canLogin <;> cases hsp : r.spa <;>
                  cases hupd : env.db.updateError <;>
                  simp [login, hu, hconn, loginQuery, hsel, hv, Ran.after, loginGate, hg, hr,
                    hs, hc, hsp, loginFinish, hupd, internalServerError] at h
                rename_i spa
                refine ⟨user, rest, withSpaStatus user.loginObj r spa, rfl, hv,
                  Or.inr ⟨r, spa, hg, hr, hs, hc, hsp, rfl⟩, ?_, ?_⟩
                · simp [login, hu, hconn, loginQuery, hsel, hv, Ran.after, loginGate, hg, hr,
                    hs, hc, hsp, loginFinish, hupd]
                · intro p hp
                  cases hsw : startsWith user.password_hash "$2b$" <;>
                    simp [login, hu, hconn, loginQuery, hsel, hv, Ran.after, loginGate, hg,
                      hr, hs, hc, hsp, loginFinish, hupd, passwordCalls, hsw] at hp <;>
                    exact hp
            · have hg : (user.role == "admin_spa" && user.spa_id.truthy) = false := by
                simpa using hg
              cases hupd : env.db.updateError with
              | some e =>
                simp [login, hu, hconn, loginQuery, hsel, hv, Ran.after, loginGate_skipped,
                  hg, loginFinish, hupd, internalServerError] at h
              | none =>
                refine ⟨user, rest, user.loginObj, rfl, hv, Or.inl ⟨hg, rfl⟩, ?_, ?_⟩
                · simp [login, hu, hconn, loginQuery, hsel, hv, Ran.after, loginGate_skipped,
                    hg, loginFinish, hupd]
                · intro p hp
                  cases hsw : startsWith user.password_hash "$2b$" <;>
                    simp [login, hu, hconn, loginQuery, hsel, hv, Ran.after, loginGate_skipped,
                      hg, loginFinish, hupd, passwordCalls, hsw] at hp <;>
                    exact hp

/-- C11. The token carries no authorization decision.  For every login
answered 200, tenant-scoped or not, the payload signed into the returned token
is exactly `id`, `username`, `role` and `spa_id` of the identity found by the
lookup, signed with the option `expiresIn` set to `24h`; it has no `canLogin`,
`access_level`, `allowed_tabs`, `status_message` or `spa_status` property, and
no other payload is signed. -/
theorem login_token_claims (env : Env) (req : LoginRequest)
    (hsuccess : (login env req).response.status = 200) :
    ∃ user rest payload,
      env.db.selectByUsername req.username = .ok (user :: rest) ∧
      payload = [("id", Json.val (.num user.id)), ("username", Json.ofStr user.username),
                 ("role", Json.ofStr user.role), ("spa_id", Json.val user.spa_id)] ∧
      (login env req).response.body.get "token" =
        some (.ofStr (env.jwtSign payload (JWT_SECRET env) "24h")) ∧
      (∀ p, Call.jwtSign p ∈ (login env req).calls → p = payload) ∧
      JsObj.has payload "canLogin" = false ∧ JsObj.has payload "access_level" = false ∧
      JsObj.has payload "allowed_tabs" = false ∧ JsObj.has payload "status_message" = false ∧
      JsObj.has payload "spa_status" = false := by
  obtain ⟨user, rest, userObj, hsel, -, -, hresp, hcalls⟩ := login_success_inv env req hsuccess
  refine ⟨user, rest, tokenPayload user, hsel, rfl, ?_, hcalls, ?_, ?_, ?_, ?_, ?_⟩
  · rw [hresp]
    simp [JsObj.get, tokenPayload, Json.ofStr]
  all_goals simp [JsObj.has, tokenPayload]

/-- Witness of C11: `spa1` of the approved tenant 7 logs in; the user object
of the response carries the allowed tabs, the signed payload is the four
claims. -/
theorem login_token_claims_witness :
    (∃ tabs, JsObj.get (Example.spa1.loginObj ++ tabs) "allowed_tabs" =
        some (.ofStrs ["dashboard", "therapists", "payments"]) ∧
      (login (Example.env "approved") ⟨.str "spa1", .str "plaintext123"⟩).response.body.get
        "user" = some (.obj (JsObj.delete (Example.spa1.loginObj ++ tabs) "password_hash"))) ∧
    ∃ user rest payload,
      (Example.env "approved").db.selectByUsername (.str "spa1") = .ok (user :: rest) ∧
      payload = [("id", Json.val (.num user.id)), ("username", Json.ofStr user.username),
                 ("role", Json.ofStr user.role), ("spa_id", Json.val user.spa_id)] ∧
      (login (Example.env "approved") ⟨.str "spa1", .str "plaintext123"⟩).response.body.get
        "token" = some (.ofStr ((Example.env "approved").jwtSign payload
          (JWT_SECRET (Example.env "approved")) "24h")) ∧
      (∀ p, Call.jwtSign p ∈
          (login (Example.env "approved") ⟨.str "spa1", .str "plaintext123"⟩).calls →
        p = payload) ∧
      JsObj.has payload "canLogin" = false ∧ JsObj.has payload "access_level" = false ∧
      JsObj.has payload "allowed_tabs" = false ∧ JsObj.has payload "status_message" = false ∧
      JsObj.has payload "spa_status" = false :=
  ⟨⟨[("spa_status", .ofStr "approved"), ("access_level", .ofStr "full"),
      ("allowed_tabs", .ofStrs ["dashboard", "therapists", "payments"]),
      ("status_message", .ofStr "")], rfl, rfl⟩,
    login_token_claims (Example.env "approved") ⟨.str "spa1", .str "plaintext123"⟩ rfl⟩

/-- C12, at the failing input.  The token of tenant 7 asks for tenant 7 while
the navigation filter and the status resolver report a failure with an error
text: the navigation handler and the spa-status handler send that text as the
`message` of their 500, so two error texts give two bodies; the login handler
answers the same resolver failure with the fixed message
"Error checking spa status". -/
theorem navigation_and_status_send_error_text (text : String) :
    (navigation (Example.envFailing text) "7" (some "Bearer t7")).response =
      ⟨500, [("success", .ofBool false), ("message", .ofStr text)]⟩ ∧
    (spaStatus (Example.envFailing text) "7" (some "Bearer t7")).response =
      ⟨500, [("success", .ofBool false), ("message", .ofStr text)]⟩ ∧
    (navigation (Example.envFailing "ER_ACCESS_DENIED_ERROR") "7"
        (some "Bearer t7")).response.body ≠
      (navigation (Example.envFailing "ECONNREFUSED 10.0.0.5:3306") "7"
        (some "Bearer t7")).response.body ∧
    (login (Example.envFailing text) ⟨.str "spa1", .str "plaintext123"⟩).response =
      ⟨500, [("success", .ofBool false), ("message", .ofStr "Error checking spa status")]⟩ := by
  refine ⟨rfl, rfl, ?_, rfl⟩
  have h₁ : (navigation (Example.envFailing "ER_ACCESS_DENIED_ERROR") "7"
      (some "Bearer t7")).response.body =
      [("success", .ofBool false), ("message", .ofStr "ER_ACCESS_DENIED_ERROR")] := rfl
  have h₂ : (navigation (Example.envFailing "ECONNREFUSED 10.0.0.5:3306") "7"
      (some "Bearer t7")).response.body =
      [("success", .ofBool false), ("message", .ofStr "ECONNREFUSED 10.0.0.5:3306")] := rfl
  rw [h₁, h₂]
  simp [Json.ofStr]

/-- C13. The secret is in no identity sent to the client.  The `user` object
of a login answered 200 is the fetched row without `password_hash`, every
other fetched column kept in place, followed by the status properties the
tenant gate added, if it ran.  The `user` object of a verify answered 200 is
the row fetched by the id of the token among the rows with `is_active = 1`,
whose columns do not include `password_hash`. -/
theorem identity_without_secret (env : Env) (req : LoginRequest)
    (authorization : Option String) :
    ((login env req).response.status = 200 →
      ∃ user rest extras,
        env.db.selectByUsername req.username = .ok (user :: rest) ∧
        (login env req).response.body.get "user" = some (.obj
          ([("id", Json.val (.num user.id)), ("username", Json.ofStr user.username),
            ("email", Json.val user.email), ("role", Json.ofStr user.role),
            ("full_name", Json.val user.full_name), ("phone", Json.val user.phone),
            ("spa_id", Json.val user.spa_id), ("is_active", Json.val (.num user.is_active)),
            ("last_login", Json.val user.last_login)] ++ extras)) ∧
        (extras = [] ∨ ∃ r spa, env.getSpaStatusAndAccess user.spa_id = .ok r ∧
          r.spa = some spa ∧
          extras = [("spa_status", Json.ofStr spa.status),
                    ("access_level", Json.ofStr r.accessLevel),
                    ("allowed_tabs", Json.ofStrs r.allowedTabs),
                    ("status_message", Json.ofStr r.statusMessage)]) ∧
        JsObj.has extras "password_hash" = false) ∧
    ((verify env authorization).response.status = 200 →
      ∃ token decoded user rest,
        bearerToken authorization = some token ∧
        env.jwtVerify token (JWT_SECRET env) = .ok decoded ∧
        env.db.selectById decoded.id = .ok (user :: rest) ∧
        user.is_active = 1 ∧
        Call.selectById decoded.id ∈ (verify env authorization).calls ∧
        (verify env authorization).response.body.get "user" = some (.obj
          [("id", Json.val (.num user.id)), ("username", Json.ofStr user.username),
           ("email", Json.val user.email), ("role", Json.ofStr user.role),
           ("full_name", Json.val user.full_name), ("phone", Json.val user.phone),
           ("spa_id", Json.val user.spa_id), ("is_active", Json.val (.num user.is_active))])) := by
  constructor
  · intro hsuccess
    obtain ⟨user, rest, userObj, hsel, -, hgate, hresp, -⟩ := login_success_inv env req hsuccess
    rcases hgate with ⟨-, hobj⟩ | ⟨r, spa, -, hr, -, -, hsp, hobj⟩
    · refine ⟨user, rest, [], hsel, ?_, Or.inl rfl, rfl⟩
      rw [hresp, hobj]
      simp [JsObj.get, JsObj.delete, UserRow.loginObj]
    · refine ⟨user, rest, _, hsel, ?_, Or.inr ⟨r, spa, hr, hsp, rfl⟩, ?_⟩
      · rw [hresp, hobj]
        simp [JsObj.get, JsObj.delete, JsObj.set, withSpaStatus, UserRow.loginObj]
      · simp [JsObj.has]
  · intro hsuccess
    cases hb : bearerToken authorization with
    | none => simp [verify, hb, noTokenProvided] at hsuccess
    | some token =>
      by_cases ht : token = ""
      · simp [verify, hb, ht, noTokenProvided] at hsuccess
      · cases hj : env.jwtVerify token (JWT_SECRET env) with
        | error e => simp [verify, hb, ht, hj, invalidToken] at hsuccess
        | ok decoded =>
          cases hconn : env.db.connectError with
          | some e => simp [verify, hb, ht, hj, hconn, invalidToken] at hsuccess
          | none =>
            cases hsel : env.db.selectById decoded.id with
            | error e =>
              simp [verify, hb, ht, hj, hconn, verifyQuery, hsel, Ran.after,
                invalidToken] at hsuccess
            | ok rows =>
              cases rows with
              | nil =>
                simp [verify, hb, ht, hj, hconn, verifyQuery, hsel, Ran.after] at hsuccess
              | cons user rest =>
                have hactive : user.is_active = 1 := by
                  have hsel' := hsel
                  unfold Db.selectById at hsel'
                  split at hsel'
                  · cases hsel'
                  · have heq := Except.ok.inj hsel'
                    have hmem : user ∈ env.db.admin_users.filter
                        (fun r => env.db.idEq r.id decoded.id && r.is_active == 1) := by
                      rw [heq]
                      exact List.mem_cons_self _ _
                    have hp := (List.mem_filter.mp hmem).2
                    simp only [Bool.and_eq_true, beq_iff_eq] at hp
                    exact hp.2
                refine ⟨token, decoded, user, rest, rfl, hj, hsel, hactive, ?_, ?_⟩
                · simp [verify, hb, ht, hj, hconn, verifyQuery, hsel, Ran.after]
                · simp [verify, hb, ht, hj, hconn, verifyQuery, hsel, Ran.after, JsObj.get,
                    UserRow.verifyObj]

/-- Witness of C13: `spa1` of the approved tenant 7 logs in, and the token
`t7` is verified. -/
theorem identity_without_secret_witness :
    (∃ user rest extras,
        (Example.env "approved").db.selectByUsername (.str "spa1") = .ok (user :: rest) ∧
        (login (Example.env "approved") ⟨.str "spa1", .str "plaintext123"⟩).response.body.get
          "user" = some (.obj
          ([("id", Json.val (.num user.id)), ("username", Json.ofStr user.username),
            ("email", Json.val user.email), ("role", Json.ofStr user.role),
            ("full_name", Json.val user.full_name), ("phone", Json.val user.phone),
            ("spa_id", Json.val user.spa_id), ("is_active", Json.val (.num user.is_active)),
            ("last_login", Json.val user.last_login)] ++ extras)) ∧
        (extras = [] ∨ ∃ r spa,
          (Example.env "approved").getSpaStatusAndAccess user.spa_id = .ok r ∧
          r.spa = some spa ∧
          extras = [("spa_status", Json.ofStr spa.status),
                    ("access_level", Json.ofStr r.accessLevel),
                    ("allowed_tabs", Json.ofStrs r.allowedTabs),
                    ("status_message", Json.ofStr r.statusMessage)]) ∧
        JsObj.has extras "password_hash" = false) ∧
    (verify (Example.env "approved") (some "Bearer t7")).response.body.get "user" =
      some (.obj Example.spa1.verifyObj) :=
  ⟨(identity_without_secret (Example.env "approved") ⟨.str "spa1", .str "plaintext123"⟩
      (some "Bearer t7")).1 rfl,
    rfl⟩

/-- Counterexample to C14: `orphan`, an `admin_spa` account whose `spa_id` is
`null`, logs in with the right secret while the `UPDATE admin_users` statement
fails; the answer is the 500 "Internal server error" without token, not a
success. -/
theorem login_orphan_not_always_success :
    (Example.envOrphanUpdateFails "approved").db.selectByUsername (.str "orphan") =
      .ok [Example.orphan] ∧
    Example.orphan.role = "admin_spa" ∧ Example.orphan.spa_id.truthy = false ∧
    isPasswordValid (Example.envOrphanUpdateFails "approved") (.str "hunter2")
      Example.orphan = true ∧
    (login (Example.envOrphanUpdateFails "approved")
      ⟨.str "orphan", .str "hunter2"⟩).response.status = 500 ∧
    (login (Example.envOrphanUpdateFails "approved")
      ⟨.str "orphan", .str "hunter2"⟩).response.body.has "token" = false := by
  refine ⟨rfl, rfl, rfl, rfl, rfl, rfl⟩

/-- C14, amended. An `admin_spa` identity without tenant id passes by the tenant gate.
For an active identity with role `admin_spa` whose `spa_id` is falsy (`null`,
`undefined`, 0) and whose credentials match, the handler makes no call to the
status resolver and its outcome is the same under any two resolvers; the
last-login update completing, the response is the 200 whose `user` object is
the fetched row without `password_hash`, with no `spa_status`, `access_level`
or `allowed_tabs`, and whose token is signed over a payload with that falsy
`spa_id`. -/
theorem login_admin_spa_without_tenant (env : Env) (req : LoginRequest)
    (user : UserRow) (rest : List UserRow)
    (huser : req.username.truthy = true) (hpass : req.password.truthy = true)
    (hconn : env.db.connectError = none)
    (hrow : env.db.selectByUsername req.username = .ok (user :: rest))
    (hvalid : isPasswordValid env req.password user = true)
    (hrole : user.role = "admin_spa") (hfalsy : user.spa_id.truthy = false) :
    (∀ c ∈ (login env req).calls, ∀ spa_id, c ≠ Call.getSpaStatusAndAccess spa_id) ∧
    (∀ r : JsVal → Except String SpaStatusCheck,
      login { env with getSpaStatusAndAccess := r } req = login env req) ∧
    (env.db.updateError = none →
      (login env req).response =
        ⟨200, [("success", .ofBool true), ("message", .ofStr "Login successful"),
               ("user", .obj
                 [("id", .val (.num user.id)), ("username", .ofStr user.username),
                  ("email", .val user.email), ("role", .ofStr "admin_spa"),
                  ("full_name", .val user.full_name), ("phone", .val user.phone),
                  ("spa_id", .val user.spa_id), ("is_active", .val (.num user.is_active)),
                  ("last_login", .val user.last_login)]),
               ("token", .ofStr (env.jwtSign
                 [("id", .val (.num user.id)), ("username", .ofStr user.username),
                  ("role", .ofStr "admin_spa"), ("spa_id", .val user.spa_id)]
                 (JWT_SECRET env) "24h"))]⟩) := by
  have hg : (user.role == "admin_spa" && user.spa_id.truthy) = false := by
    simp [hfalsy]
  refine ⟨?_, ?_, ?_⟩
  · intro c hc spa_id heq
    subst heq
    cases hupd : env.db.updateError <;>
      cases hsw : startsWith user.password_hash "$2b$" <;>
      simp [login, huser, hpass, hconn, loginQuery, hrow, hvalid, loginGate_skipped, hg,
        loginFinish, hupd, passwordCalls, hsw, Ran.after] at hc
  · intro r
    simp [login, huser, hpass, hconn, loginQuery, hrow, hvalid, isPasswordValid_resolver,
      loginGate_skipped, hg, loginFinish_resolver, Ran.after]
  · intro hupd
    have hskip := loginGate_skipped env user hg
    simp [login, huser, hpass, hconn, loginQuery, hrow, hvalid, hskip,
      loginFinish, hupd, Ran.after, JsObj.delete, UserRow.loginObj, tokenPayload, hrole]

/-- Witness of C14, amended: `orphan`, an `admin_spa` account whose `spa_id` is `null`,
logs in while tenant 7 is blacklisted. -/
theorem login_admin_spa_without_tenant_witness :
    (∀ c ∈ (login (Example.envOrphan "blacklisted") ⟨.str "orphan", .str "hunter2"⟩).calls,
      ∀ spa_id, c ≠ Call.getSpaStatusAndAccess spa_id) ∧
    (login (Example.envOrphan "blacklisted") ⟨.str "orphan", .str "hunter2"⟩).response.status =
      200 ∧
    (login (Example.envOrphan "blacklisted") ⟨.str "orphan", .str "hunter2"⟩).response.body.get
      "token" = some (.ofStr "signed") :=
  have h := login_admin_spa_without_tenant (Example.envOrphan "blacklisted")
    ⟨.str "orphan", .str "hunter2"⟩ Example.orphan [] (by decide) (by decide) rfl rfl
    (by decide) rfl (by decide)
  ⟨h.1, by rw [h.2.2 rfl], by rw [h.2.2 rfl]; rfl⟩

/-- C5, at the failing input.  The token `tbig` verifies with the `spa_id`
claim 9007199254740992 and asks for tenant 9007199254740993, a different
tenant.  ToNumber rounds the path to 9007199254740992, the loose comparison of
lines 240 and 288 finds the two equal, and instead of the 403 the navigation
handler calls the navigation filter for the other tenant and returns its
items, and the spa-status handler calls the status resolver for the other
tenant and returns its allowed tabs. -/
theorem cross_tenant_served_after_rounding :
    Example.envBig.jwtVerify "tbig" (JWT_SECRET Example.envBig) =
      .ok ⟨.num 5, .num 9007199254740992⟩ ∧
    StringToNumber "9007199254740993" = .int 9007199254740992 ∧
    JsVal.looseNeStr Example.envBig.toNumber (.num 9007199254740992) "9007199254740993" =
      false ∧
    navigation Example.envBig "9007199254740993" (some "Bearer tbig") =
      ⟨⟨200, [("success", .ofBool true),
              ("navigation", .arr [.ofStr "dashboard", .ofStr "therapists", .ofStr "payments"]),
              ("statusInfo", .ofStr "approved")]⟩,
       [.jwtVerify "tbig", .getFilteredNavigation (.str "9007199254740993")]⟩ ∧
    spaStatus Example.envBig "9007199254740993" (some "Bearer tbig") =
      ⟨⟨200, [("success", .ofBool true),
              ("spa", .obj [("status", .ofStr "approved")]),
              ("accessLevel", .ofStr "full"),
              ("allowedTabs", .ofStrs ["dashboard", "therapists", "payments"]),
              ("statusMessage", .ofStr ""),
              ("canLogin", .ofBool true)]⟩,
       [.jwtVerify "tbig", .getSpaStatusAndAccess (.str "9007199254740993")]⟩ := by
  refine ⟨rfl, by decide, by decide, rfl, rfl⟩

end Spaavii
